import Mathlib

/-!
Verification of the NodeNetworkConfigurationPolicy state-reconciliation helper
(`resources/node_network_configuration_policy.py`).

The Python class is shallowly embedded: every attribute of the object becomes a
field of the `Policy` structure, every method becomes a Lean function threading
the `Policy` state explicitly, and every interaction with an external
collaborator (the Kubernetes API's `update`, the per-node `NodeNetworkState`
observation, the wait on interface deletion) is a parameter of the function
that performs it.  Python exceptions become `Except` / `Option` results.
-/

/-- A static IPv4 address entry, `{"ip": ..., "prefix-length": ...}`. -/
structure Addr where
  ip : String
  prefixLength : Int
deriving DecidableEq, Repr

/-- The two-key dict `{k: interface["ipv4"][k] for k in ("dhcp", "enabled")}`
captured by `_ipv4_state_backup` and compared in `_absent_interface`. -/
structure IPv4State where
  dhcp : Bool
  enabled : Bool
deriving DecidableEq, Repr

/-- The `ipv4` value written into a desired-state interface dict.
`address?` is `none` when the `"address"` key is absent from the dict. -/
structure IPv4Dict where
  enabled : Bool
  dhcp : Bool
  address? : Option (List Addr)
deriving DecidableEq, Repr

/-- The `ipv6` value written into a desired-state interface dict. -/
structure IPv6Dict where
  enabled : Bool
deriving DecidableEq, Repr

/-- A desired-state interface dict.  A field holding `none` models the
corresponding key being absent from the Python dict. -/
structure Interface where
  name : String
  type? : Option String
  state? : Option String
  mtu? : Option Int
  ipv4? : Option IPv4Dict
  ipv6? : Option IPv6Dict
deriving DecidableEq, Repr

/-- One entry of `node_network_state.instance.status.currentState.interfaces`
restricted to the keys the code reads (`name` and the two `ipv4` sub-keys). -/
structure ObservedIface where
  name : String
  ipv4 : IPv4State
deriving DecidableEq, Repr

/-- A worker pod; the code only reads `pod.node.name`. -/
structure Pod where
  nodeName : String
deriving DecidableEq, Repr

/-- A one-key node-selector dict such as
`{"kubernetes.io/hostname": <name>}` or `{"node-role.kubernetes.io/worker": ""}`. -/
structure Selector where
  key : String
  value : String
deriving DecidableEq, Repr

/-- Interface state constants (`Interface.State` in the source). -/
def stateUP : String := "up"

def stateABSENT : String := "absent"

/-- Condition type and terminal-reason constants (`Conditions` in the source). -/
def typeAVAILABLE : String := "Available"

def reasonSUCCESS : String := "SuccessfullyConfigured"

def reasonFAILED : String := "FailedToConfigure"

/-- Python exceptions that the embedded methods can raise.  `keyError` also
stands for the `StopIteration` of `next(iter(...))` on an empty dict: both
abort `clean_up` uncaught, so they are not distinguished further. -/
inductive PyExc
  | attributeError
  | typeError
  | keyError
  | timeoutExpired
  | updateError (msg : String)
deriving DecidableEq, Repr

/-- The state of one `NodeNetworkConfigurationPolicy` object: every `self.*`
attribute the embedded methods read or write.  `desired` is
`self.desired_state["interfaces"]` (the only key of `desired_state`);
`node_selector_attr = none` models the `_node_selector` attribute never having
been assigned by `__init__` (reading it then raises `AttributeError`);
`iface = none` models `self.iface` still being `None`. -/
structure Policy where
  name : String
  desired : List Interface
  worker_pods : List Pod
  mtu : Option Int
  mtu_dict : List (String × Int)
  ports : List String
  iface : Option Interface
  ifaces : List Interface
  node_active_nics : List String
  ipv4_enable : Bool
  ipv4_dhcp : Bool
  ipv4_addresses : List Addr
  ipv6_enable : Bool
  ipv4_iface_state : List (String × List (String × IPv4State))
  node_selector_attr : Option Selector
  teardown : Bool
deriving DecidableEq, Repr

/-- Python truthiness of an optional string (`if self.node_selector:`):
`None` and `""` are falsy. -/
def truthyStr : Option String → Bool
  | none => false
  | some s => !(s == "")

/-- Python truthiness of an optional int (`if self.mtu:`): `None` and `0` are
falsy. -/
def truthyInt : Option Int → Bool
  | none => false
  | some n => !(n == 0)

/-- The node-selector part of `__init__` (lines 75-83): when a truthy
`node_selector` is given, the first worker pod on that node narrows
`worker_pods` and assigns `_node_selector`; with no match `_node_selector`
is never assigned.  Otherwise the role-based worker selector is assigned. -/
def init_node_selector (worker_pods : List Pod) (node_selector : Option String) :
    Option Selector × List Pod :=
  if truthyStr node_selector then
    match worker_pods.find? (fun p => p.nodeName == node_selector.getD "") with
    | some p => (some ⟨"kubernetes.io/hostname", node_selector.getD ""⟩, [p])
    | none => (none, worker_pods)
  else
    (some ⟨"node-role.kubernetes.io/worker", ""⟩, worker_pods)

/-- The constructor `__init__`.  `worker_pods`, `ports`, `ipv4_addresses` and
`node_active_nics` are passed already defaulted to `[]` (the `x or []`
idiom of the source). -/
def init (name : String) (worker_pods : List Pod) (node_selector : Option String)
    (teardown : Bool) (mtu : Option Int) (ports : List String)
    (ipv4_enable ipv4_dhcp : Bool) (ipv4_addresses : List Addr)
    (ipv6_enable : Bool) (node_active_nics : List String) : Policy :=
  let sel := init_node_selector worker_pods node_selector
  { name := name
    desired := []
    worker_pods := sel.2
    mtu := mtu
    mtu_dict := []
    ports := ports
    iface := none
    ifaces := []
    node_active_nics := node_active_nics
    ipv4_enable := ipv4_enable
    ipv4_dhcp := ipv4_dhcp
    ipv4_addresses := ipv4_addresses
    ipv6_enable := ipv6_enable
    ipv4_iface_state := []
    node_selector_attr := sel.1
    teardown := teardown }

/-- Source `set_interface` (lines 85-95): drop every entry with the same name, then
append the new entry. -/
def set_interface (interfaces : List Interface) (interface : Interface) :
    List Interface :=
  (interfaces.filter (fun i => !(i.name == interface.name))) ++ [interface]

/-- The desired-state document submitted to the external store.  The metadata
produced by the external `Resource._base_body` is not part of the modelled
state; the document keeps the fields `to_dict` itself writes:
`spec.nodeSelector` (when present) and `spec.desiredState.interfaces`. -/
structure NNCPDoc where
  nodeSelector : Option Selector
  interfaces : List Interface
deriving DecidableEq, Repr

/-- In the source, once `to_dict` has recorded `self.iface` into `self.ifaces`
the two hold the same dict object, so a later mutation of the one is visible
through the other.  The embedding keeps `ifaces` authoritative: this helper
writes the updated primary interface back over the entry bearing its name,
appending it when no such entry exists (`if self.iface not in self.ifaces`). -/
def updateIfaces (ifaces : List Interface) (i : Interface) : List Interface :=
  if ifaces.any (fun j => j.name == i.name) then
    ifaces.map (fun j => if j.name == i.name then i else j)
  else
    ifaces ++ [i]

/-- Alias-aware read of `self.iface`: when an entry of `self.ifaces` bears the
primary interface's name, that (possibly mutated) entry is the object
`self.iface` points at. -/
def currentIface (pol : Policy) (i0 : Interface) : Interface :=
  (pol.ifaces.find? (fun j => j.name == i0.name)).getD i0

/-- Source `to_dict` (lines 97-119).  Reading the never-assigned `_node_selector`
raises `AttributeError`; subscripting `self.iface` while it is `None` raises
`TypeError`.  Otherwise the primary interface receives its `ipv4` dict
(`address` key only when `ipv4_addresses` is non-empty) and its `ipv6` dict,
is merged into the desired state by `set_interface`, and is recorded in
`ifaces`.  The returned document shares `desired_state` with the object, so it
shows the post-merge interface list. -/
def to_dict (pol : Policy) : Except PyExc (NNCPDoc × Policy) :=
  match pol.node_selector_attr with
  | none => .error .attributeError
  | some sel =>
    match pol.iface with
    | none => .error .typeError
    | some i0 =>
      let i := currentIface pol i0
      let i' : Interface :=
        { i with
          ipv4? := some
            { enabled := pol.ipv4_enable
              dhcp := pol.ipv4_dhcp
              address? :=
                if pol.ipv4_addresses.isEmpty then none else some pol.ipv4_addresses }
          ipv6? := some { enabled := pol.ipv6_enable } }
      let desired' := set_interface pol.desired i'
      let pol' :=
        { pol with
          desired := desired'
          ifaces := updateIfaces pol.ifaces i'
          iface := some i' }
      .ok (⟨some sel, desired'⟩, pol')

/-- One outcome of a call to the external `self.update(resource_dict=...)`:
success, a `ConflictError` (the only exception class the sampler retries), or
any other exception. -/
inductive UpdateOutcome
  | ok
  | conflict
  | fatal (msg : String)
deriving DecidableEq, Repr

/-- Modelled from the spec: the repository's `TimeoutSampler` polling utility
(`resources/utils.py`, not under `src/`) — "given a timeout, sleep interval,
and a zero-argument probe (optionally restricted to retry only on specific
error classes), produces a sequence of samples until timeout, raising a
timeout error if exhausted".  Here specialised to `apply`'s use: `fuel` is the
number of samples the window `timeout=3, sleep=1` admits, `u k` is the outcome
of the `k`-th call to `self.update`; a `conflict` is swallowed and retried, a
success ends the `for _sample in samples: return` loop, any other exception
propagates, and an exhausted window raises `TimeoutExpiredError`. -/
def samplerRetry (u : Nat → UpdateOutcome) : Nat → Nat → Except PyExc Unit
  | _, 0 => .error .timeoutExpired
  | k, fuel + 1 =>
    match u k with
    | .ok => .ok ()
    | .conflict => samplerRetry u (k + 1) fuel
    | .fatal msg => .error (.updateError msg)

/-- Source `apply` (lines 121-131): serialize with `to_dict`, then submit through the
sampler (`timeout=3, sleep=1, exceptions=ConflictError`).  A raised exception
carries the object state at the moment of the raise (the `to_dict` mutations
have already happened when `update` fails). -/
def apply (u : NNCPDoc → Nat → UpdateOutcome) (pol : Policy) :
    Except (PyExc × Policy) Policy :=
  match to_dict pol with
  | .error e => .error (e, pol)
  | .ok (doc, pol') =>
    match samplerRetry (u doc) 0 3 with
    | .ok _ => .ok pol'
    | .error e => .error (e, pol')

/-- A status condition `(type, reason)` as read from
`self.instance.status.conditions`. -/
structure Condition where
  type : String
  reason : String
deriving DecidableEq, Repr

/-- Source `status` (lines 271-274): the reason of the first `Available` condition,
`None` when there is none. -/
def status (conds : List Condition) : Option String :=
  (conds.find? (fun c => c.type == typeAVAILABLE)).map (fun c => c.reason)

/-- Result of `wait_for_status_success`: the normal return, the raised
`NNCPConfigurationFailed`, or the raised (and re-raised) `TimeoutExpiredError`. -/
inductive WatchOutcome
  | success
  | configFailed
  | timedOut
deriving DecidableEq, Repr

/-- Source `wait_for_conditions` (lines 296-302) through the spec-modelled sampler:
sample `self.instance.status.conditions` (the observation at time `t` is
`probe t`) until a non-empty list appears, returning the time of that sample;
`none` is the sampler's `TimeoutExpiredError` once the `timeout=30, sleep=1`
window is exhausted. -/
def wait_for_conditions (probe : Nat → List Condition) : Nat → Nat → Option Nat
  | _, 0 => none
  | t, fuel + 1 =>
    if (probe t).isEmpty then wait_for_conditions probe (t + 1) fuel else some t

/-- The second sampling loop of `wait_for_status_success` (lines 280-294):
poll `status` until it yields the success sentinel (normal return) or the
failure sentinel (raise `NNCPConfigurationFailed`); any other sample — a
different reason or no `Available` condition — is skipped; an exhausted window
raises `TimeoutExpiredError`, which the `except` clause logs and re-raises. -/
def statusLoop (probe : Nat → List Condition) : Nat → Nat → WatchOutcome
  | _, 0 => .timedOut
  | t, fuel + 1 =>
    match status (probe t) with
    | some r =>
      if r == reasonSUCCESS then .success
      else if r == reasonFAILED then .configFailed
      else statusLoop probe (t + 1) fuel
    | none => statusLoop probe (t + 1) fuel

/-- Source `wait_for_status_success` (lines 276-294): first wait for conditions to
exist at all, then poll the `Available` reason.  Each successive sample reads
a fresh observation, so the second loop continues at the next time index. -/
def wait_for_status_success (probe : Nat → List Condition) : WatchOutcome :=
  match wait_for_conditions probe 0 30 with
  | none => .timedOut
  | some t => statusLoop probe (t + 1) 30

/-- Source `_ipv4_state_backup` (lines 219-232): for every worker pod, snapshot the
`{dhcp, enabled}` pair of every observed interface whose name is a managed
port, keyed by node then by port, in observation order.  `obs node` is the
fresh `NodeNetworkState(...)` read for that node. -/
def _ipv4_state_backup (obs : String → List ObservedIface) (pol : Policy) : Policy :=
  { pol with
    ipv4_iface_state :=
      pol.worker_pods.map (fun pod =>
        (pod.nodeName,
          ((obs pod.nodeName).filter (fun oi => pol.ports.contains oi.name)).map
            (fun oi => (oi.name, oi.ipv4)))) }

/-- The per-pod body of the diff in `_absent_interface` (lines 244-260): walk
the pod's observed interfaces; for each one that is a managed port, look up
its backup entry (`KeyError` when the node or the port is missing from the
backup table) and record the backed-up pair when it differs from the current
observation.  Recorded in observation order, as Python dict insertion order. -/
def changedPorts (backup : List (String × List (String × IPv4State)))
    (podName : String) (ports : List String) (obsIfaces : List ObservedIface) :
    Option (List (String × IPv4State)) :=
  obsIfaces.foldlM
    (fun acc oi =>
      if ports.contains oi.name then
        match (backup.lookup podName).bind (fun m => m.lookup oi.name) with
        | none => none
        | some bk => if bk = oi.ipv4 then some acc else some (acc ++ [(oi.name, bk)])
      else
        some acc)
    []

/-- Python `temp_ipv4_iface_state`: the per-node changed-port tables, in
`worker_pods` order (Python dict insertion order). -/
def tempStates (obs : String → List ObservedIface) (pol : Policy) :
    Option (List (String × List (String × IPv4State))) :=
  pol.worker_pods.foldlM
    (fun acc pod =>
      (changedPorts pol.ipv4_iface_state pod.nodeName pol.ports (obs pod.nodeName)).map
        (fun ch => acc ++ [(pod.nodeName, ch)]))
    []

/-- The restore interface dict `{"name": iface_name, "ipv4": ipv4}` pushed by
the restore loop of `_absent_interface` (lines 265-267). -/
def restoreInterface (iface_name : String) (ipv4 : IPv4State) : Interface :=
  { name := iface_name
    type? := none
    state? := none
    mtu? := none
    ipv4? := some { enabled := ipv4.enabled, dhcp := ipv4.dhcp, address? := none }
    ipv6? := none }

/-- One iteration of the `for bridge in self.ifaces` loop of
`_absent_interface` (lines 235-267), acting on the entry at `idx`:
the bridge dict is mutated in place (`bridge["state"] = ABSENT`, visible in
`self.ifaces`) and merged into the desired state; when DHCP is enabled the
diff tables are rebuilt and the first node's backed-up pairs are re-injected
into the desired state (`next(iter(...))` on no pods raises, modelled as
`none` together with the diff's `KeyError`). -/
def absentStep (obs : String → List ObservedIface) (pol : Policy) (idx : Nat) :
    Option Policy :=
  match pol.ifaces.get? idx with
  | none => some pol
  | some ifc =>
    let ifc' := { ifc with state? := some stateABSENT }
    let pol1 :=
      { pol with
        ifaces := pol.ifaces.set idx ifc'
        desired := set_interface pol.desired ifc' }
    if pol1.ipv4_dhcp then
      match tempStates obs pol1 with
      | none => none
      | some temp =>
        match temp.head? with
        | none => none
        | some first =>
          some
            { pol1 with
              desired :=
                first.2.foldl
                  (fun d pr => set_interface d (restoreInterface pr.1 pr.2)) pol1.desired }
    else
      some pol1

/-- The whole bridge loop of `_absent_interface`: every entry of
`self.ifaces`, in order.  Marking preserves the list's length, so the index
range is fixed up front. -/
def absentLoop (obs : String → List ObservedIface) (pol : Policy) : Option Policy :=
  (List.range pol.ifaces.length).foldlM (fun p idx => absentStep obs p idx) pol

/-- How a `_absent_interface()` call ends, seen from `clean_up`'s `try`:
normal return, a `TimeoutExpiredError` raised by `apply`'s sampler after the
state mutations (caught by `clean_up`), or any other exception (uncaught). -/
inductive AbsentOutcome
  | ok (pol : Policy)
  | timedOut (pol : Policy)
  | exc (e : PyExc)
deriving DecidableEq, Repr

/-- Source `_absent_interface` (lines 234-269): the bridge loop, then `self.apply()`. -/
def _absent_interface (obs : String → List ObservedIface)
    (u : NNCPDoc → Nat → UpdateOutcome) (pol : Policy) : AbsentOutcome :=
  match absentLoop obs pol with
  | none => .exc .keyError
  | some pol1 =>
    match apply u pol1 with
    | .ok pol2 => .ok pol2
    | .error (.timeoutExpired, pol2) => .timedOut pol2
    | .error (e, _) => .exc e

/-- The MTU-restore prologue of `clean_up` (lines 181-189): for every managed
port, push an `up` ethernet entry carrying the backed-up MTU
(`KeyError` when `mtu_dict` has no entry for the port). -/
def cleanUpMtu (pol : Policy) : Except PyExc Policy :=
  if truthyInt pol.mtu then
    pol.ports.foldlM
      (fun p port =>
        match p.mtu_dict.lookup port with
        | none => .error .keyError
        | some m =>
          .ok
            { p with
              desired :=
                set_interface p.desired
                  { name := port
                    type? := some "ethernet"
                    state? := some stateUP
                    mtu? := some m
                    ipv4? := none
                    ipv6? := none } })
      pol
  else
    .ok pol

/-- Observable events of one `clean_up` run: the interfaces whose `try` block
was entered, every name whose state was set to `"absent"` (in order, one
record per assignment), the iterations whose `TimeoutExpiredError` was caught
and logged, and whether the final `self.delete()` was reached. -/
structure CleanUpTrace where
  attempted : List String
  absentMarks : List String
  caughtTimeouts : List String
  deleteCalled : Bool
deriving DecidableEq, Repr

/-- The `for iface in self.ifaces` loop of `clean_up` (lines 191-203) over the
list as it stood when the loop started: skip names in `node_active_nics`;
otherwise run `_absent_interface` and then `wait_for_interface_deleted`,
catching (and logging) `TimeoutExpiredError` from either so the loop
continues; any other exception propagates.  `wt k` tells whether the `k`-th
executed deletion wait times out.  The absent marks of a call are the names of
every entry of `self.ifaces` at that moment, since the bridge loop of
`_absent_interface` marks them all. -/
def cleanUpLoop (obs : String → List ObservedIface) (u : NNCPDoc → Nat → UpdateOutcome)
    (wt : Nat → Bool) :
    Policy → List Interface → Nat → CleanUpTrace → Except PyExc (Policy × CleanUpTrace)
  | pol, [], _, tr => .ok (pol, tr)
  | pol, ifc :: rest, k, tr =>
    if pol.node_active_nics.contains ifc.name then
      cleanUpLoop obs u wt pol rest k tr
    else
      let marks := pol.ifaces.map (fun i => i.name)
      let tr1 := { tr with attempted := tr.attempted ++ [ifc.name] }
      match _absent_interface obs u pol with
      | .exc e => .error e
      | .timedOut pol' =>
        cleanUpLoop obs u wt pol' rest (k + 1)
          { tr1 with
            absentMarks := tr1.absentMarks ++ marks
            caughtTimeouts := tr1.caughtTimeouts ++ [ifc.name] }
      | .ok pol' =>
        let tr2 := { tr1 with absentMarks := tr1.absentMarks ++ marks }
        if wt k then
          cleanUpLoop obs u wt pol' rest (k + 1)
            { tr2 with caughtTimeouts := tr2.caughtTimeouts ++ [ifc.name] }
        else
          cleanUpLoop obs u wt pol' rest (k + 1) tr2

/-- Source `clean_up` (lines 180-205): MTU restore, the per-interface absent loop,
then the unconditional `self.delete()` (recorded in the trace). -/
def clean_up (obs : String → List ObservedIface) (u : NNCPDoc → Nat → UpdateOutcome)
    (wt : Nat → Bool) (pol : Policy) : Except PyExc (Policy × CleanUpTrace) :=
  match cleanUpMtu pol with
  | .error e => .error e
  | .ok pol1 =>
    match cleanUpLoop obs u wt pol1 pol1.ifaces 0 ⟨[], [], [], false⟩ with
    | .error e => .error e
    | .ok (pol2, tr) => .ok (pol2, { tr with deleteCalled := true })

/-- The exceptions each step of `__enter__` may raise, as seen by the caller:
`backupExc` from `_ipv4_state_backup`, `mtuExc` from the MTU-reading loop,
`createExc` from `super().__enter__()` (the resource creation), `waitExc` from
`wait_for_status_success`, `validateExc` from `validate_create`.
`none` means the step succeeds. -/
structure EnterExcs where
  backupExc : Option String
  mtuExc : Option String
  createExc : Option String
  waitExc : Option String
  validateExc : Option String
deriving DecidableEq, Repr

/-- What a run of `__enter__` yields: the raised exception (or normal return)
and whether `self.clean_up()` was invoked on the way. -/
structure EnterOutcome where
  result : Except String Unit
  cleanUpRan : Bool
deriving Repr

instance : DecidableEq (Except String Unit) := fun a b =>
  match a, b with
  | .ok (), .ok () => isTrue rfl
  | .error e, .error f =>
    if h : e = f then isTrue (by rw [h]) else isFalse (by intro hc; cases hc; exact h rfl)
  | .ok _, .error _ => isFalse (by intro hc; cases hc)
  | .error _, .ok _ => isFalse (by intro hc; cases hc)

instance : DecidableEq EnterOutcome := fun a b =>
  match a, b with
  | ⟨r1, c1⟩, ⟨r2, c2⟩ =>
    if h : r1 = r2 ∧ c1 = c2 then isTrue (by rw [h.1, h.2])
    else isFalse (by intro hc; cases hc; exact h ⟨rfl, rfl⟩)

/-- Source `__enter__` (lines 133-157) as a control-flow skeleton over the outcomes
of its effectful steps: the DHCP backup (only when `_ipv4_dhcp`), the MTU
backup (only when `self.mtu` is truthy), `super().__enter__()`, and then the
`try` block in which a failure of `wait_for_status_success` or
`validate_create` triggers `self.clean_up()` before the exception is
re-raised.  Note the `try` covers only those two calls; earlier failures
propagate without cleanup, and `self.teardown` is never consulted. -/
def enterRun (pol : Policy) (e : EnterExcs) : EnterOutcome :=
  match (if pol.ipv4_dhcp then e.backupExc else none) with
  | some msg => ⟨.error msg, false⟩
  | none =>
    match (if truthyInt pol.mtu then e.mtuExc else none) with
    | some msg => ⟨.error msg, false⟩
    | none =>
      match e.createExc with
      | some msg => ⟨.error msg, false⟩
      | none =>
        match e.waitExc with
        | some msg => ⟨.error msg, true⟩
        | none =>
          match e.validateExc with
          | some msg => ⟨.error msg, true⟩
          | none => ⟨.ok (), false⟩

/-- Source `__exit__` (lines 159-162): whether `self.clean_up()` runs on normal scope
exit — it returns at once when teardown is disabled. -/
def exitRunsCleanUp (pol : Policy) : Bool :=
  if !pol.teardown then false else true

/-- A baseline in-memory policy used to instantiate concrete runs: one worker
pod, the role-based selector, all optional features off. -/
def basePol : Policy :=
  { name := "nncp"
    desired := []
    worker_pods := [⟨"node1"⟩]
    mtu := none
    mtu_dict := []
    ports := []
    iface := none
    ifaces := []
    node_active_nics := []
    ipv4_enable := false
    ipv4_dhcp := false
    ipv4_addresses := []
    ipv6_enable := false
    ipv4_iface_state := []
    node_selector_attr := some ⟨"node-role.kubernetes.io/worker", ""⟩
    teardown := true }

theorem map_name_filter (l : List Interface) (i : Interface) :
    (l.filter (fun j => !(j.name == i.name))).map (fun j => j.name)
      = (l.map (fun j => j.name)).filter (fun n => !(n == i.name)) := by
  induction l with
  | nil => rfl
  | cons a t ih =>
    cases h : a.name == i.name <;> simp [List.filter_cons, h, ih]

theorem set_interface_nodup (l : List Interface) (i : Interface)
    (h : (l.map (fun j => j.name)).Nodup) :
    ((set_interface l i).map (fun j => j.name)).Nodup := by
  unfold set_interface
  rw [List.map_append, map_name_filter]
  refine List.Nodup.append (h.filter _) (List.nodup_singleton _) ?_
  intro n hn hn'
  have hn2 : n = i.name := by simpa using hn'
  subst hn2
  have hmem := List.of_mem_filter hn
  simp at hmem

theorem foldl_set_interface_nodup (calls : List Interface) :
    ∀ acc : List Interface, (acc.map (fun j => j.name)).Nodup →
      ((calls.foldl set_interface acc).map (fun j => j.name)).Nodup := by
  induction calls with
  | nil => intro acc h; exact h
  | cons a t ih => intro acc h; exact ih _ (set_interface_nodup _ _ h)

theorem set_interface_filter_self (l : List Interface) (x : Interface) :
    (set_interface l x).filter (fun j => j.name == x.name) = [x] := by
  unfold set_interface
  rw [List.filter_append, List.filter_filter]
  have h1 : l.filter (fun a => (a.name == x.name) && !(a.name == x.name)) = [] := by
    apply List.filter_eq_nil_iff.mpr
    intro a _
    cases h : a.name == x.name <;> simp [h]
  simp [h1]

/-- C3: for every sequence of `set_interface` calls starting from the empty
desired-state list, the interface names stay pairwise distinct; and after two
calls with the same name (on any starting list) the list keeps exactly one
entry for that name, the second call's content. -/
theorem claim_C3_set_interface_last_write_wins :
    (∀ calls : List Interface,
      ((calls.foldl set_interface []).map (fun j => j.name)).Nodup)
    ∧ ∀ (l : List Interface) (a b : Interface), a.name = b.name →
        (set_interface (set_interface l a) b).filter (fun j => j.name == b.name) = [b] := by
  constructor
  · intro calls
    exact foldl_set_interface_nodup calls [] (by simp)
  · intro l a b _h
    exact set_interface_filter_self _ b

/-- Witness for C3 at a concrete pair of same-name, different-content calls. -/
theorem claim_C3_witness :
    (set_interface
        (set_interface [] ⟨"eth1", none, some "up", none, none, none⟩)
        ⟨"eth1", none, some "down", none, none, none⟩).filter
      (fun j => j.name == "eth1")
      = [⟨"eth1", none, some "down", none, none, none⟩] :=
  claim_C3_set_interface_last_write_wins.2 []
    ⟨"eth1", none, some "up", none, none, none⟩
    ⟨"eth1", none, some "down", none, none, none⟩ rfl

theorem currentIface_name (pol : Policy) (i : Interface) :
    (currentIface pol i).name = i.name := by
  unfold currentIface
  cases h : pol.ifaces.find? (fun j => j.name == i.name) with
  | none => rfl
  | some a =>
    have h2 := List.find?_some h
    simp only [beq_iff_eq] at h2
    simpa using h2

theorem set_interface_getLast (l : List Interface) (i : Interface) :
    (set_interface l i).getLast? = some i := by
  unfold set_interface
  exact List.getLast?_concat _

/-- C7: in the document built by `to_dict` (whenever it builds one at all:
the primary interface and the node selector are set), the primary interface —
the entry `set_interface` just appended, hence the last of the desired-state
list — carries an `ipv4` dict whose `enabled` and `dhcp` flags are always
present with the configured values, whose `address` key equals the configured
static address list when that list is non-empty, and which has no `address`
key when the list is empty. -/
theorem claim_C7_to_dict_ipv4_address (pol : Policy) (i : Interface) (sel : Selector)
    (hi : pol.iface = some i) (hsel : pol.node_selector_attr = some sel) :
    ∃ doc pol' ifc, to_dict pol = .ok (doc, pol')
      ∧ doc.interfaces.getLast? = some ifc
      ∧ ifc.name = i.name
      ∧ ∃ v4, ifc.ipv4? = some v4
          ∧ v4.enabled = pol.ipv4_enable
          ∧ v4.dhcp = pol.ipv4_dhcp
          ∧ (pol.ipv4_addresses ≠ [] → v4.address? = some pol.ipv4_addresses)
          ∧ (pol.ipv4_addresses = [] → v4.address? = none) := by
  unfold to_dict
  rw [hsel, hi]
  refine ⟨_, _, _, rfl, set_interface_getLast _ _, currentIface_name pol i, _, rfl, rfl, rfl,
    ?_, ?_⟩
  · intro hne
    simp [List.isEmpty_iff, hne]
  · intro heq
    simp [heq]

/-- The concrete primary interface and policy used to witness C7. -/
def ifcC7 : Interface := ⟨"br0", none, none, none, none, none⟩

def polC7 : Policy :=
  { basePol with
    iface := some ifcC7
    ipv4_enable := true
    ipv4_addresses := [⟨"10.1.2.3", 24⟩] }

/-- Witness for C7 at a concrete policy holding one static address. -/
theorem claim_C7_witness :
    ∃ doc pol' ifc, to_dict polC7 = .ok (doc, pol')
      ∧ doc.interfaces.getLast? = some ifc
      ∧ ifc.name = ifcC7.name
      ∧ ∃ v4, ifc.ipv4? = some v4
          ∧ v4.enabled = polC7.ipv4_enable
          ∧ v4.dhcp = polC7.ipv4_dhcp
          ∧ (polC7.ipv4_addresses ≠ [] → v4.address? = some polC7.ipv4_addresses)
          ∧ (polC7.ipv4_addresses = [] → v4.address? = none) :=
  claim_C7_to_dict_ipv4_address polC7 ifcC7
    ⟨"node-role.kubernetes.io/worker", ""⟩ rfl rfl

/-- C9: when a node-selector hostname is supplied (a truthy string) but no
worker pod runs on a node of that name — in particular when `worker_pods` is
empty — the constructor leaves the `_node_selector` attribute unassigned, and
a later `to_dict` raises `AttributeError` instead of producing a document;
the role-based worker selector is assigned exactly on the no-selector path,
never on a truthy-selector path. -/
theorem claim_C9_unmatched_selector (pods : List Pod) (s : String)
    (hs : s ≠ "") (hnone : ∀ p ∈ pods, p.nodeName ≠ s) :
    ((init "n" pods (some s) true none [] false false [] false []).node_selector_attr = none
      ∧ to_dict (init "n" pods (some s) true none [] false false [] false [])
          = .error .attributeError)
    ∧ (∀ pods2 : List Pod,
        (init "n" pods2 none true none [] false false [] false []).node_selector_attr
          = some ⟨"node-role.kubernetes.io/worker", ""⟩)
    ∧ (∀ (pods2 : List Pod) (s2 : String), s2 ≠ "" →
        (init "n" pods2 (some s2) true none [] false false [] false []).node_selector_attr
          ≠ some ⟨"node-role.kubernetes.io/worker", ""⟩) := by
  have htruthy : truthyStr (some s) = true := by
    simp [truthyStr, hs]
  have hfind : pods.find? (fun p => p.nodeName == s) = none := by
    apply List.find?_eq_none.mpr
    intro p hp
    simpa using hnone p hp
  refine ⟨⟨?_, ?_⟩, ?_, ?_⟩
  · simp [init, init_node_selector, htruthy, hfind]
  · have hsel : (init "n" pods (some s) true none [] false false [] false
        []).node_selector_attr = none := by
      simp [init, init_node_selector, htruthy, hfind]
    unfold to_dict
    rw [hsel]
  · intro pods2
    simp [init, init_node_selector, truthyStr]
  · intro pods2 s2 hs2
    have ht2 : truthyStr (some s2) = true := by simp [truthyStr, hs2]
    simp only [init, init_node_selector, ht2]
    cases hf : pods2.find? (fun p => p.nodeName == (some s2).getD "") with
    | none => simp [hf]
    | some p => simp [hf]

/-- Witness for C9: a single worker pod on `nodeA`, selector `nodeB`. -/
theorem claim_C9_witness :
    ((init "n" [⟨"nodeA"⟩] (some "nodeB") true none [] false false []
        false []).node_selector_attr = none
      ∧ to_dict (init "n" [⟨"nodeA"⟩] (some "nodeB") true none [] false false [] false [])
          = .error .attributeError)
    ∧ (∀ pods2 : List Pod,
        (init "n" pods2 none true none [] false false [] false []).node_selector_attr
          = some ⟨"node-role.kubernetes.io/worker", ""⟩)
    ∧ (∀ (pods2 : List Pod) (s2 : String), s2 ≠ "" →
        (init "n" pods2 (some s2) true none [] false false [] false []).node_selector_attr
          ≠ some ⟨"node-role.kubernetes.io/worker", ""⟩) :=
  claim_C9_unmatched_selector [⟨"nodeA"⟩] "nodeB" (by decide)
    (by intro p hp; simp at hp; simp [hp])

theorem status_single (t r : String) : status [⟨t, r⟩] = if t == typeAVAILABLE then some r else none := by
  unfold status
  cases h : t == typeAVAILABLE <;> simp [List.find?, h]

theorem prog_ne_success :
    (("ConfigurationProgressing" : String) == reasonSUCCESS) = false := by decide

theorem prog_ne_failed :
    (("ConfigurationProgressing" : String) == reasonFAILED) = false := by decide

theorem failed_ne_success : (reasonFAILED == reasonSUCCESS) = false := by decide

theorem wait_for_conditions_none (probe : Nat → List Condition)
    (h : ∀ i, probe i = []) : ∀ fuel t, wait_for_conditions probe t fuel = none := by
  intro fuel
  induction fuel with
  | zero => intro t; rfl
  | succ f ih => intro t; simp [wait_for_conditions, h t, ih]

theorem wait_for_conditions_at_zero (probe : Nat → List Condition)
    (h : (probe 0).isEmpty = false) : wait_for_conditions probe 0 30 = some 0 := by
  rw [show (30 : Nat) = 29 + 1 from rfl]
  simp [wait_for_conditions, h]

theorem statusLoop_success (probe : Nat → List Condition) (K : Nat)
    (h1 : ∀ i, i < K → probe i = [⟨typeAVAILABLE, "ConfigurationProgressing"⟩])
    (h2 : ∀ i, K ≤ i → probe i = [⟨typeAVAILABLE, reasonSUCCESS⟩]) :
    ∀ fuel t, 0 < fuel → K < t + fuel → statusLoop probe t fuel = .success := by
  intro fuel
  induction fuel with
  | zero => intro t hf _; omega
  | succ f ih =>
    intro t _ hK
    by_cases ht : K ≤ t
    · simp only [statusLoop, h2 t ht, status_single]
      simp
    · push_neg at ht
      simp only [statusLoop, h1 t ht, status_single]
      simp only [beq_self_eq_true, if_true, prog_ne_success, prog_ne_failed,
        Bool.false_eq_true, if_false]
      exact ih (t + 1) (by omega) (by omega)

/-- C2: `wait_for_status_success` first waits for the conditions list to be
non-empty, then polls the `Available` reason: with non-terminal conditions for
the first `K` samples and the success sentinel from sample `K` on (`K` inside
the window) it returns normally; with the failure sentinel it raises
`NNCPConfigurationFailed`; and when no condition ever appears it raises the
sampler's timeout error once the window elapses. -/
theorem claim_C2_status_watcher :
    (∀ (probe : Nat → List Condition) (K : Nat), K < 30 →
        (∀ i, i < K → probe i = [⟨typeAVAILABLE, "ConfigurationProgressing"⟩]) →
        (∀ i, K ≤ i → probe i = [⟨typeAVAILABLE, reasonSUCCESS⟩]) →
        wait_for_status_success probe = .success)
    ∧ (∀ probe : Nat → List Condition,
        (∀ i, probe i = [⟨typeAVAILABLE, reasonFAILED⟩]) →
        wait_for_status_success probe = .configFailed)
    ∧ (∀ probe : Nat → List Condition,
        (∀ i, probe i = []) → wait_for_status_success probe = .timedOut) := by
  refine ⟨?_, ?_, ?_⟩
  · intro probe K hK h1 h2
    have h0 : (probe 0).isEmpty = false := by
      rcases Nat.eq_zero_or_pos K with hK0 | hKpos
      · rw [h2 0 (by omega)]; rfl
      · rw [h1 0 hKpos]; rfl
    unfold wait_for_status_success
    rw [wait_for_conditions_at_zero probe h0]
    exact statusLoop_success probe K h1 h2 30 1 (by omega) (by omega)
  · intro probe h
    have h0 : (probe 0).isEmpty = false := by rw [h 0]; rfl
    unfold wait_for_status_success
    rw [wait_for_conditions_at_zero probe h0]
    rw [show (30 : Nat) = 29 + 1 from rfl]
    simp only [statusLoop, h 1, status_single]
    simp [failed_ne_success]
  · intro probe h
    unfold wait_for_status_success
    rw [wait_for_conditions_none probe h 30 0]

/-- Concrete probes witnessing C2: success after two non-terminal samples,
constant failure, and no condition ever. -/
def probeW1 : Nat → List Condition := fun i =>
  if i < 2 then [⟨typeAVAILABLE, "ConfigurationProgressing"⟩]
  else [⟨typeAVAILABLE, reasonSUCCESS⟩]

def probeW2 : Nat → List Condition := fun _ => [⟨typeAVAILABLE, reasonFAILED⟩]

def probeW3 : Nat → List Condition := fun _ => []

/-- Witness for C2 at the three concrete probes. -/
theorem claim_C2_witness :
    wait_for_status_success probeW1 = .success
    ∧ wait_for_status_success probeW2 = .configFailed
    ∧ wait_for_status_success probeW3 = .timedOut :=
  ⟨claim_C2_status_watcher.1 probeW1 2 (by omega)
      (fun i hi => by simp [probeW1, hi])
      (fun i hi => by simp [probeW1]; omega),
    claim_C2_status_watcher.2.1 probeW2 (fun i => rfl),
    claim_C2_status_watcher.2.2 probeW3 (fun i => rfl)⟩

theorem samplerRetry_succ (f : Nat → UpdateOutcome) (k fuel : Nat) :
    samplerRetry f k (fuel + 1) =
      match f k with
      | .ok => .ok ()
      | .conflict => samplerRetry f (k + 1) fuel
      | .fatal msg => .error (.updateError msg) := rfl

theorem samplerRetry_ok (f : Nat → UpdateOutcome) :
    ∀ (fuel k s : Nat), k < fuel → (∀ j, j < k → f (s + j) = .conflict) →
      f (s + k) = .ok → samplerRetry f s fuel = .ok () := by
  intro fuel
  induction fuel with
  | zero => intro k s h _ _; omega
  | succ fl ih =>
    intro k s hk hconf hok
    cases k with
    | zero =>
      have h0 : f s = .ok := by simpa using hok
      rw [samplerRetry_succ, h0]
    | succ k' =>
      have hc : f s = .conflict := by simpa using hconf 0 (by omega)
      rw [samplerRetry_succ, hc]
      refine ih k' (s + 1) (by omega) (fun j hj => ?_) ?_
      · rw [show s + 1 + j = s + (j + 1) by omega]
        exact hconf (j + 1) (by omega)
      · rw [show s + 1 + k' = s + (k' + 1) by omega]
        exact hok

theorem samplerRetry_fatal (f : Nat → UpdateOutcome) :
    ∀ (fuel k s : Nat) (m : String), k < fuel →
      (∀ j, j < k → f (s + j) = .conflict) → f (s + k) = .fatal m →
      samplerRetry f s fuel = .error (.updateError m) := by
  intro fuel
  induction fuel with
  | zero => intro k s m h _ _; omega
  | succ fl ih =>
    intro k s m hk hconf hfat
    cases k with
    | zero =>
      have h0 : f s = .fatal m := by simpa using hfat
      rw [samplerRetry_succ, h0]
    | succ k' =>
      have hc : f s = .conflict := by simpa using hconf 0 (by omega)
      rw [samplerRetry_succ, hc]
      refine ih k' (s + 1) m (by omega) (fun j hj => ?_) ?_
      · rw [show s + 1 + j = s + (j + 1) by omega]
        exact hconf (j + 1) (by omega)
      · rw [show s + 1 + k' = s + (k' + 1) by omega]
        exact hfat

theorem samplerRetry_timeout (f : Nat → UpdateOutcome) :
    ∀ (fuel s : Nat), (∀ j, j < fuel → f (s + j) = .conflict) →
      samplerRetry f s fuel = .error .timeoutExpired := by
  intro fuel
  induction fuel with
  | zero => intro s _; rfl
  | succ fl ih =>
    intro s hconf
    have hc : f s = .conflict := by simpa using hconf 0 (by omega)
    rw [samplerRetry_succ, hc]
    refine ih (s + 1) (fun j hj => ?_)
    rw [show s + 1 + j = s + (j + 1) by omega]
    exact hconf (j + 1) (by omega)

/-- C6: `apply` serializes the state through `to_dict` and submits the
resulting document, retrying only on `ConflictError` inside the
`timeout=3, sleep=1` window: the first successful `update` ends the loop; a
non-conflict exception from `update` propagates immediately (after any number
of preceding conflicts); a window full of conflicts surfaces as the sampler's
timeout error. -/
theorem claim_C6_apply_conflict_retry (pol pol1 : Policy) (doc : NNCPDoc)
    (u : NNCPDoc → Nat → UpdateOutcome) (htd : to_dict pol = .ok (doc, pol1)) :
    (∀ k, k < 3 → (∀ j, j < k → u doc j = .conflict) → u doc k = .ok →
        apply u pol = .ok pol1)
    ∧ (∀ k m, k < 3 → (∀ j, j < k → u doc j = .conflict) → u doc k = .fatal m →
        apply u pol = .error (.updateError m, pol1))
    ∧ ((∀ j, j < 3 → u doc j = .conflict) →
        apply u pol = .error (.timeoutExpired, pol1)) := by
  refine ⟨?_, ?_, ?_⟩
  · intro k hk hconf hok
    unfold apply
    simp only [htd]
    rw [samplerRetry_ok (u doc) 3 k 0 hk (fun j hj => by simpa using hconf j hj)
      (by simpa using hok)]
  · intro k m hk hconf hfat
    unfold apply
    simp only [htd]
    rw [samplerRetry_fatal (u doc) 3 k 0 m hk (fun j hj => by simpa using hconf j hj)
      (by simpa using hfat)]
  · intro hconf
    unfold apply
    simp only [htd]
    rw [samplerRetry_timeout (u doc) 3 0 (fun j hj => by simpa using hconf j hj)]

/-- Concrete inputs witnessing C6: a fresh bond-interface policy and an
update endpoint that reports one conflict and then succeeds. -/
def ifcW : Interface := ⟨"bond1", none, none, none, none, none⟩

def polC6 : Policy := { basePol with iface := some ifcW }

def ifcW' : Interface :=
  ⟨"bond1", none, none, none, some ⟨false, false, none⟩, some ⟨false⟩⟩

def docC6 : NNCPDoc := ⟨some ⟨"node-role.kubernetes.io/worker", ""⟩, [ifcW']⟩

def polC6done : Policy :=
  { polC6 with desired := [ifcW'], ifaces := [ifcW'], iface := some ifcW' }

def uW : NNCPDoc → Nat → UpdateOutcome := fun _ k => if k == 0 then .conflict else .ok

/-- Witness for C6: one conflict, then success on the second attempt. -/
theorem claim_C6_witness : apply uW polC6 = .ok polC6done :=
  (claim_C6_apply_conflict_retry polC6 polC6done docC6 uW rfl).1 1 (by omega)
    (fun j hj => by
      have hj0 : j = 0 := by omega
      subst hj0
      rfl)
    rfl

/-- The entry-step outcome with a failing resource creation, used against C5. -/
def eCreateFail : EnterExcs := ⟨none, none, some "resource creation failed", none, none⟩

/-- Counterexample to C5 as stated: when `super().__enter__()` — the resource
creation — raises, `__enter__` re-raises without ever calling `clean_up`,
because the `try` block only starts after the creation. -/
theorem claim_C5_counterexample :
    (enterRun basePol eCreateFail).result = .error "resource creation failed"
    ∧ (enterRun basePol eCreateFail).cleanUpRan = false :=
  ⟨rfl, rfl⟩

/-- C5 (amended): `clean_up` is attempted before the exception is re-raised
exactly when the failure comes from inside `__enter__`'s `try` block — the
status-success wait or the create validation — i.e. after the DHCP backup,
the MTU backup and the resource creation all succeeded; failures of those
earlier steps propagate without any cleanup.  The second conjunct checks that
the original exception is indeed re-raised after the cleanup. -/
theorem claim_C5_enter_cleanup_scope (pol : Policy) (e : EnterExcs) :
    ((enterRun pol e).cleanUpRan =
      ((!pol.ipv4_dhcp || e.backupExc.isNone) && (!truthyInt pol.mtu || e.mtuExc.isNone)
        && e.createExc.isNone && (e.waitExc.isSome || e.validateExc.isSome)))
    ∧ ((enterRun pol e).cleanUpRan = true →
        ∃ msg, (e.waitExc = some msg ∨ (e.waitExc = none ∧ e.validateExc = some msg))
          ∧ (enterRun pol e).result = .error msg) := by
  obtain ⟨b, m, c, w, v⟩ := e
  cases hd : pol.ipv4_dhcp <;> cases hm : truthyInt pol.mtu <;>
    cases b <;> cases m <;> cases c <;> cases w <;> cases v <;>
      simp [enterRun, hd, hm]

/-- Witness for C5's amended statement: a failing status wait on a plain
policy triggers cleanup and re-raises that same exception. -/
theorem claim_C5_witness :
    ∃ msg,
      ((⟨none, none, none, some "status wait failed", none⟩ : EnterExcs).waitExc = some msg
        ∨ ((⟨none, none, none, some "status wait failed", none⟩ : EnterExcs).waitExc = none
            ∧ (⟨none, none, none, some "status wait failed", none⟩ :
                EnterExcs).validateExc = some msg))
      ∧ (enterRun basePol ⟨none, none, none, some "status wait failed", none⟩).result
          = .error msg :=
  (claim_C5_enter_cleanup_scope basePol
    ⟨none, none, none, some "status wait failed", none⟩).2 rfl

/-- A policy with teardown disabled, and a failing status wait. -/
def polNT : Policy := { basePol with teardown := false }

def eWaitFail : EnterExcs := ⟨none, none, none, some "status wait failed", none⟩

/-- C10: the teardown flag gates only the normal scope-exit path — `__exit__`
does nothing when teardown is disabled — while the cleanup run by a failing
scope entry is oblivious to the flag: `enterRun` is unchanged by any rewrite
of `teardown`, and a policy with teardown disabled still cleans up when the
status wait fails during entry. -/
theorem claim_C10_teardown_gates_exit_only :
    (∀ pol : Policy, exitRunsCleanUp pol = pol.teardown)
    ∧ (∀ (pol : Policy) (e : EnterExcs) (b : Bool),
        enterRun { pol with teardown := b } e = enterRun pol e)
    ∧ (polNT.teardown = false ∧ (enterRun polNT eWaitFail).cleanUpRan = true) := by
  refine ⟨?_, ?_, rfl, rfl⟩
  · intro pol
    cases h : pol.teardown <;> simp [exitRunsCleanUp, h]
  · intro pol e b
    rfl

/-- The scenario of C4: one bridge, one managed port whose DHCP flag changed
after the backup was taken. -/
def br1C4 : Interface := ⟨"br1", some "linux-bridge", some "up", none, none, none⟩

def polC4 : Policy :=
  { basePol with
    iface := some br1C4
    ifaces := [br1C4]
    ports := ["port1"]
    ipv4_dhcp := true
    ipv4_iface_state := [("node1", [("port1", ⟨false, true⟩)])] }

def obsC4 : String → List ObservedIface := fun _ => [⟨"port1", ⟨true, true⟩⟩]

def uOkAll : NNCPDoc → Nat → UpdateOutcome := fun _ _ => .ok

/-- C4: with the pre-change backup `{node1: {port1: {dhcp: false, enabled:
true}}}` and a current observation in which port1's dhcp became true, the
bridge loop of `_absent_interface` (the part that runs before `self.apply()`
submits the state) yields a desired-state list holding the bridge marked
absent followed by the re-injected backed-up pair for port1; and the full
`_absent_interface` call keeps that restore entry in the desired state it
ends with. -/
theorem claim_C4_dhcp_backup_restore :
    (absentLoop obsC4 polC4 = some
      { polC4 with
        ifaces := [{ br1C4 with state? := some stateABSENT }]
        desired :=
          [{ br1C4 with state? := some stateABSENT },
            restoreInterface "port1" ⟨false, true⟩] })
    ∧ (∃ polF, _absent_interface obsC4 uOkAll polC4 = .ok polF
        ∧ restoreInterface "port1" ⟨false, true⟩ ∈ polF.desired) := by
  refine ⟨by decide, ⟨_, rfl, by decide⟩⟩

/-- The failing input of C1: historical interfaces `eth0`, `br1`, `br2` with
`eth0` a node-active (physical) NIC that cleanup is meant to protect. -/
def polC1 : Policy :=
  { basePol with
    iface := some (⟨"br1", none, some stateUP, none, none, none⟩ : Interface)
    ifaces :=
      [⟨"eth0", none, some stateUP, none, none, none⟩,
        ⟨"br1", none, some stateUP, none, none, none⟩,
        ⟨"br2", none, some stateUP, none, none, none⟩]
    node_active_nics := ["eth0"] }

def obsE : String → List ObservedIface := fun _ => []

def wtNone : Nat → Bool := fun _ => false

/-- C1 (evaluating the code at the failing input): `clean_up` on `polC1` sets
the protected `eth0`'s state to `"absent"` — twice — because each of the two
non-skipped iterations calls `_absent_interface`, whose bridge loop marks
every member of `self.ifaces` including the skipped physical NIC; and `br1`
is marked absent twice rather than exactly once. -/
theorem claim_C1_cleanup_marks_active_nic :
    ∃ tr : CleanUpTrace,
      (clean_up obsE uOkAll wtNone polC1).map (fun r => r.2) = .ok tr
        ∧ "eth0" ∈ tr.absentMarks
        ∧ tr.absentMarks.count "br1" = 2
        ∧ tr.attempted = ["br1", "br2"] := by
  refine ⟨_, rfl, by decide, by decide, by decide⟩

theorem absentStep_fields (obs : String → List ObservedIface) (pol : Policy) (idx : Nat)
    (h : pol.ipv4_dhcp = false) (pol' : Policy)
    (heq : absentStep obs pol idx = some pol') :
    pol'.ipv4_dhcp = false ∧ pol'.node_selector_attr = pol.node_selector_attr
      ∧ pol'.iface = pol.iface ∧ pol'.node_active_nics = pol.node_active_nics := by
  unfold absentStep at heq
  cases hg : pol.ifaces.get? idx with
  | none =>
    rw [hg] at heq
    simp only [Option.some.injEq] at heq
    subst heq
    exact ⟨h, rfl, rfl, rfl⟩
  | some ifc =>
    rw [hg] at heq
    simp only [h, Bool.false_eq_true, if_false, Option.some.injEq] at heq
    subst heq
    exact ⟨rfl, rfl, rfl, rfl⟩

theorem absentStep_isSome (obs : String → List ObservedIface) (pol : Policy) (idx : Nat)
    (h : pol.ipv4_dhcp = false) : (absentStep obs pol idx).isSome = true := by
  unfold absentStep
  cases hg : pol.ifaces.get? idx with
  | none => rfl
  | some ifc => simp [h]

theorem foldlM_absentStep (obs : String → List ObservedIface) :
    ∀ (idxs : List Nat) (pol : Policy), pol.ipv4_dhcp = false →
      ∃ pol', idxs.foldlM (fun p idx => absentStep obs p idx) pol = some pol'
        ∧ pol'.ipv4_dhcp = false
        ∧ pol'.node_selector_attr = pol.node_selector_attr
        ∧ pol'.iface = pol.iface
        ∧ pol'.node_active_nics = pol.node_active_nics := by
  intro idxs
  induction idxs with
  | nil => intro pol h; exact ⟨pol, rfl, h, rfl, rfl, rfl⟩
  | cons idx rest ih =>
    intro pol h
    obtain ⟨p1, hp1⟩ := Option.isSome_iff_exists.mp (absentStep_isSome obs pol idx h)
    obtain ⟨h1, h2, h3, h4⟩ := absentStep_fields obs pol idx h p1 hp1
    obtain ⟨pol', heq, g1, g2, g3, g4⟩ := ih p1 h1
    refine ⟨pol', ?_, g1, by rw [g2, h2], by rw [g3, h3], by rw [g4, h4]⟩
    rw [List.foldlM_cons, hp1]
    exact heq

theorem absentLoop_false (obs : String → List ObservedIface) (pol : Policy)
    (h : pol.ipv4_dhcp = false) :
    ∃ pol', absentLoop obs pol = some pol'
      ∧ pol'.ipv4_dhcp = false
      ∧ pol'.node_selector_attr = pol.node_selector_attr
      ∧ pol'.iface = pol.iface
      ∧ pol'.node_active_nics = pol.node_active_nics :=
  foldlM_absentStep obs (List.range pol.ifaces.length) pol h

theorem to_dict_fields (pol : Policy) (sel : Selector) (i : Interface)
    (hsel : pol.node_selector_attr = some sel) (hi : pol.iface = some i) :
    ∃ doc pol', to_dict pol = .ok (doc, pol')
      ∧ pol'.ipv4_dhcp = pol.ipv4_dhcp
      ∧ pol'.node_selector_attr = some sel
      ∧ pol'.iface.isSome = true
      ∧ pol'.node_active_nics = pol.node_active_nics := by
  unfold to_dict
  rw [hsel, hi]
  exact ⟨_, _, rfl, rfl, rfl, rfl, rfl⟩

theorem apply_first_ok (u : NNCPDoc → Nat → UpdateOutcome) (hu : ∀ doc, u doc 0 = .ok)
    (pol : Policy) (sel : Selector) (i : Interface)
    (hsel : pol.node_selector_attr = some sel) (hi : pol.iface = some i) :
    ∃ pol', apply u pol = .ok pol'
      ∧ pol'.ipv4_dhcp = pol.ipv4_dhcp
      ∧ pol'.node_selector_attr = some sel
      ∧ pol'.iface.isSome = true
      ∧ pol'.node_active_nics = pol.node_active_nics := by
  obtain ⟨doc, pol', htd, f1, f2, f3, f4⟩ := to_dict_fields pol sel i hsel hi
  have hs : samplerRetry (u doc) 0 3 = .ok () := by
    rw [show (3 : Nat) = 2 + 1 from rfl, samplerRetry_succ, hu doc]
  unfold apply
  simp only [htd]
  rw [hs]
  exact ⟨pol', rfl, f1, f2, f3, f4⟩

theorem absent_interface_ok (obs : String → List ObservedIface)
    (u : NNCPDoc → Nat → UpdateOutcome) (hu : ∀ doc, u doc 0 = .ok)
    (pol : Policy) (sel : Selector) (i : Interface) (hd : pol.ipv4_dhcp = false)
    (hsel : pol.node_selector_attr = some sel) (hi : pol.iface = some i) :
    ∃ pol', _absent_interface obs u pol = .ok pol'
      ∧ pol'.ipv4_dhcp = false
      ∧ pol'.node_selector_attr = some sel
      ∧ pol'.iface.isSome = true
      ∧ pol'.node_active_nics = pol.node_active_nics := by
  obtain ⟨p1, hp1, a1, a2, a3, a4⟩ := absentLoop_false obs pol hd
  have hsel1 : p1.node_selector_attr = some sel := by rw [a2, hsel]
  have hi1 : p1.iface = some i := by rw [a3, hi]
  obtain ⟨p2, hap, b1, b2, b3, b4⟩ := apply_first_ok u hu p1 sel i hsel1 hi1
  unfold _absent_interface
  simp only [hp1, hap]
  exact ⟨p2, rfl, by rw [b1, a1], b2, b3, by rw [b4, a4]⟩

theorem cleanUpLoop_ok (obs : String → List ObservedIface)
    (u : NNCPDoc → Nat → UpdateOutcome) (wt : Nat → Bool)
    (hu : ∀ doc, u doc 0 = .ok) :
    ∀ (list : List Interface) (pol : Policy) (k : Nat) (tr : CleanUpTrace)
      (sel : Selector) (i : Interface),
      pol.ipv4_dhcp = false → pol.node_selector_attr = some sel → pol.iface = some i →
      ∃ pol' tr', cleanUpLoop obs u wt pol list k tr = .ok (pol', tr')
        ∧ tr'.attempted = tr.attempted ++
            (list.filter (fun j => !(pol.node_active_nics.contains j.name))).map
              (fun j => j.name)
        ∧ tr'.deleteCalled = tr.deleteCalled := by
  intro list
  induction list with
  | nil =>
    intro pol k tr sel i _ _ _
    exact ⟨pol, tr, rfl, by simp, rfl⟩
  | cons ifc rest ih =>
    intro pol k tr sel i hd hsel hi
    cases hskip : pol.node_active_nics.contains ifc.name with
    | true =>
      have hmem : ifc.name ∈ pol.node_active_nics := by simpa using hskip
      obtain ⟨pol', tr', heq, ha, hdel⟩ := ih pol k tr sel i hd hsel hi
      refine ⟨pol', tr', ?_, ?_, hdel⟩
      · simp only [cleanUpLoop, hskip, if_true]
        exact heq
      · rw [ha]
        simp [List.filter_cons, hskip, hmem]
    | false =>
      have hmem : ifc.name ∉ pol.node_active_nics := by simpa using hskip
      obtain ⟨p2, hab, c1, c2, c3, c4⟩ := absent_interface_ok obs u hu pol sel i hd hsel hi
      obtain ⟨i2, hi2⟩ := Option.isSome_iff_exists.mp c3
      cases hwt : wt k with
      | true =>
        obtain ⟨pol', tr', heq, ha, hdel⟩ :=
          ih p2 (k + 1)
            { tr with
              attempted := tr.attempted ++ [ifc.name]
              absentMarks := tr.absentMarks ++ pol.ifaces.map (fun j => j.name)
              caughtTimeouts := tr.caughtTimeouts ++ [ifc.name] }
            sel i2 c1 c2 hi2
        refine ⟨pol', tr', ?_, ?_, hdel⟩
        · simp only [cleanUpLoop, hskip, Bool.false_eq_true, if_false, hab, hwt, if_true]
          exact heq
        · rw [ha, c4]
          simp [List.filter_cons, hskip, hmem, List.append_assoc]
      | false =>
        obtain ⟨pol', tr', heq, ha, hdel⟩ :=
          ih p2 (k + 1)
            { tr with
              attempted := tr.attempted ++ [ifc.name]
              absentMarks := tr.absentMarks ++ pol.ifaces.map (fun j => j.name) }
            sel i2 c1 c2 hi2
        refine ⟨pol', tr', ?_, ?_, hdel⟩
        · simp only [cleanUpLoop, hskip, Bool.false_eq_true, if_false, hab, hwt]
          exact heq
        · rw [ha, c4]
          simp [List.filter_cons, hskip, hmem, List.append_assoc]

/-- C8 (spec-modelled sampler): during `clean_up`, timeouts of the
per-interface deletion-confirmation wait are caught and logged — for every
pattern `wt` of such timeouts the loop still attempts every
non-protected interface, in order, and the final `delete()` is still
executed.  The hypotheses pin the scenario to a policy whose `apply` calls
succeed (first update attempt accepted, DHCP machinery off, primary interface
and selector present, no MTU override). -/
theorem claim_C8_cleanup_tolerates_wait_timeouts (obs : String → List ObservedIface)
    (u : NNCPDoc → Nat → UpdateOutcome) (wt : Nat → Bool) (pol : Policy)
    (sel : Selector) (i : Interface) (hu : ∀ doc, u doc 0 = .ok)
    (hmtu : truthyInt pol.mtu = false) (hd : pol.ipv4_dhcp = false)
    (hsel : pol.node_selector_attr = some sel) (hi : pol.iface = some i) :
    ∃ pol' tr, clean_up obs u wt pol = .ok (pol', tr)
      ∧ tr.attempted =
          (pol.ifaces.filter (fun j => !(pol.node_active_nics.contains j.name))).map
            (fun j => j.name)
      ∧ tr.deleteCalled = true := by
  obtain ⟨pol', tr', heq, ha, _⟩ :=
    cleanUpLoop_ok obs u wt hu pol.ifaces pol 0 ⟨[], [], [], false⟩ sel i hd hsel hi
  have hm : cleanUpMtu pol = .ok pol := by
    unfold cleanUpMtu
    rw [hmtu]
    simp
  unfold clean_up
  simp only [hm, heq]
  exact ⟨pol', _, rfl, by simpa using ha, rfl⟩

/-- The concrete policy of the C8 witness: two bridges, no protected NICs. -/
def polC8 : Policy :=
  { basePol with
    iface := some (⟨"br1", none, some stateUP, none, none, none⟩ : Interface)
    ifaces :=
      [⟨"br1", none, some stateUP, none, none, none⟩,
        ⟨"br2", none, some stateUP, none, none, none⟩] }

def wtAll : Nat → Bool := fun _ => true

/-- Witness for C8: every deletion wait times out, yet both bridges are
attempted and the delete still runs. -/
theorem claim_C8_witness :
    ∃ pol' tr, clean_up obsE uOkAll wtAll polC8 = .ok (pol', tr)
      ∧ tr.attempted =
          (polC8.ifaces.filter (fun j => !(polC8.node_active_nics.contains j.name))).map
            (fun j => j.name)
      ∧ tr.deleteCalled = true :=
  claim_C8_cleanup_tolerates_wait_timeouts obsE uOkAll wtAll polC8
    ⟨"node-role.kubernetes.io/worker", ""⟩
    ⟨"br1", none, some stateUP, none, none, none⟩
    (fun _ => rfl) rfl rfl rfl rfl
